import Mathlib

/-!
Shallow embedding of the page-object layer of the repository
(`Python_Pytest/utils/browserUtils.py` and `Python_Pytest/PageObject/login.py`)
together with theorems settling the claims about it.

Conventions of the embedding:
* A Selenium `WebElement` is modelled by the single capability the code uses:
  `value_of_css_property`, which either produces a string value or raises; a
  raising call is an `Except.error` carrying the exception message.
* The browser driver handle is modelled by the capabilities the code uses:
  the `title` property, and for each driver call (`find_element` followed by
  `send_keys` or `click`) an oracle telling whether that call raises, and with
  which message.  A located element is identified by the locator it was found
  with, as the code always uses a freshly located element exactly once.
* Python `None` arguments are `Option.none`; a Python dict of labels is an
  association list with unique keys (`List (String × String)`), looked up with
  `List.lookup`; Python dict truthiness (`if label_map`) is the `isEmpty` test.
* `print` output is collected into the returned list of `(label, value)`
  pairs, in emission order; the value printed for a failed retrieval is
  Python's `None`, i.e. `Option.none`.
* Possible mutation of `self` by a method is made visible by explicit state
  passing: methods that could assign to `self` return the post-state as well.
-/

/-- Python's `str.replace("-", " ")`: every hyphen becomes a space. -/
def pyReplaceDash (s : String) : String :=
  String.mk (s.data.map (fun c => if c = '-' then ' ' else c))

/-- Character-level recursion of Python's `str.title()`: a maximal run of
letters is a word; its first letter is uppercased, the rest lowercased;
non-letters pass through and end the current word.  The boolean records
whether the previous character was a letter. -/
def titleChars : Bool → List Char → List Char
  | _, [] => []
  | prevAlpha, c :: cs =>
    if c.isAlpha then
      (if prevAlpha then c.toLower else c.toUpper) :: titleChars true cs
    else
      c :: titleChars false cs

/-- Python's `str.title()` (ASCII inputs, which is all the code uses). -/
def pyTitle (s : String) : String :=
  String.mk (titleChars false s.data)

/-- The label derived from a property name when no mapped label applies:
`prop.replace("-", " ").title()` from the source. -/
def titleLabel (prop : String) : String :=
  pyTitle (pyReplaceDash prop)

/-- A rendered element, reduced to the one capability the code consumes.
`Except.error e` models the call raising an exception `e`. -/
structure Element where
  value_of_css_property : String → Except String String

/-- The label chosen for one property, from the source line
`label = label_map.get(prop) if label_map and prop in label_map else
prop.replace("-", " ").title()`.  The `isEmpty` test is Python's truthiness
of the dict in `label_map and ...`. -/
def cssLabel (label_map : Option (List (String × String))) (prop : String) :
    String :=
  match label_map with
  | some m =>
    if m.isEmpty then titleLabel prop
    else
      match m.lookup prop with
      | some l => l
      | none => titleLabel prop
  | none => titleLabel prop

/-- The value printed for one property, from the source `try`/`except`:
`value = element.value_of_css_property(prop)` with any exception collapsed
to `value = None`. -/
def cssValue (element : Element) (prop : String) : Option String :=
  match element.value_of_css_property prop with
  | Except.ok v => some v
  | Except.error _ => none

/-- The locator strategies of `selenium.webdriver.common.by.By` that the code
uses (only `By.ID` appears in the source). -/
inductive By
  | ID
  deriving DecidableEq

/-- A locator: a (strategy, value) pair, as unpacked by `find_element(*loc)`. -/
abbrev Locator := By × String

/-- The per-call oracle behaviour of a driver handle: `title`, and for each
call the code makes, whether it raises (`some` exception message) or
succeeds (`none`).  A located element is identified by the locator it was
found with, since the code uses each freshly located element exactly once. -/
structure Driver where
  title : String
  find_element_err : Locator → Option String
  send_keys_err : Locator → String → Option String
  click_err : Locator → Option String

/-- `BrowserUtils.__init__` stores the driver reference. -/
structure BrowserUtils where
  driver : Driver

/-- `BrowserUtils.getPageTitle`: `return self.driver.title`. -/
def BrowserUtils.getPageTitle (self : BrowserUtils) : String :=
  self.driver.title

set_option linter.unusedVariables false in
/-- `BrowserUtils.print_css_properties(self, element, properties=None,
label_map=None)`: when `properties is None` the default three-property list
is used; each property in order contributes one printed `(label, value)`
line.  The method reads nothing from `self`. -/
def BrowserUtils.print_css_properties (self : BrowserUtils) (element : Element)
    (properties : Option (List String))
    (label_map : Option (List (String × String))) :
    List (String × Option String) :=
  let props :=
    match properties with
    | none => ["background-color", "color", "font-size"]
    | some ps => ps
  props.map (fun prop => (cssLabel label_map prop, cssValue element prop))

/-- A driver on which every call succeeds. -/
def driverOk : Driver :=
  ⟨"Home", fun _ => none, fun _ _ => none, fun _ => none⟩

/-- A `BrowserUtils` instance over `driverOk`, for concrete evaluations. -/
def utilsOk : BrowserUtils :=
  ⟨driverOk⟩

/-- An element whose every property retrieval succeeds with value `"v"`. -/
def elemOk : Element :=
  ⟨fun _ => Except.ok "v"⟩

/-- An element whose retrieval raises exactly on property `"color"`. -/
def elemFailColor : Element :=
  ⟨fun p => if p = "color" then Except.error "stale" else Except.ok "v"⟩

lemma print_css_properties_length (b : BrowserUtils) (el : Element)
    (props : List String) (lm : Option (List (String × String))) :
    (b.print_css_properties el (some props) lm).length = props.length := by
  simp [BrowserUtils.print_css_properties]

lemma print_css_properties_getD (b : BrowserUtils) (el : Element)
    (props : List String) (lm : Option (List (String × String))) (i : Nat)
    (hi : i < props.length) :
    (b.print_css_properties el (some props) lm).getD i ("", none) =
      (cssLabel lm (props.getD i ""), cssValue el (props.getD i "")) := by
  simp [BrowserUtils.print_css_properties, List.getD, List.getElem?_map,
    List.getElem?_eq_getElem, hi]

/-- Claim C1: for every property processed by `print_css_properties`, if a
label map is provided and contains the property name then the emitted label
is the mapped label; otherwise (property absent from the map, or no map at
all) the emitted label is the property name with hyphens replaced by spaces
and each word title-cased. -/
theorem C1_emitted_label (b : BrowserUtils) (el : Element)
    (props : List String) (lm : Option (List (String × String))) (i : Nat)
    (hi : i < props.length) :
    (∀ m l, lm = some m → m.lookup (props.getD i "") = some l →
      ((b.print_css_properties el (some props) lm).getD i ("", none)).1 = l) ∧
    ((lm = none ∨ ∃ m, lm = some m ∧ m.lookup (props.getD i "") = none) →
      ((b.print_css_properties el (some props) lm).getD i ("", none)).1 =
        titleLabel (props.getD i "")) := by
  rw [print_css_properties_getD b el props lm i hi]
  constructor
  · intro m l hm hl
    subst hm
    rw [List.getD_eq_getElem?_getD props i ""] at hl
    cases m with
    | nil => simp at hl
    | cons p rest => simp [cssLabel, hl]
  · intro h
    rcases h with h | ⟨m, hm, hl⟩
    · subst h; rfl
    · subst hm
      rw [List.getD_eq_getElem?_getD props i ""] at hl
      cases m with
      | nil => rfl
      | cons p rest => simp [cssLabel, hl]

/-- Witness for C1 at concrete inputs: with map `{"color": "Text Color"}`,
property `"color"` gets label `"Text Color"`, and property `"font-size"`,
absent from the map, gets label `"Font Size"`. -/
theorem C1_emitted_label_witness :
    ((utilsOk.print_css_properties elemOk (some ["color", "font-size"])
        (some [("color", "Text Color")])).getD 0 ("", none)).1 = "Text Color" ∧
    ((utilsOk.print_css_properties elemOk (some ["color", "font-size"])
        (some [("color", "Text Color")])).getD 1 ("", none)).1 = "Font Size" := by
  constructor
  · exact (C1_emitted_label utilsOk elemOk ["color", "font-size"]
      (some [("color", "Text Color")]) 0 (by decide)).1
      [("color", "Text Color")] "Text Color" rfl (by decide)
  · have h := (C1_emitted_label utilsOk elemOk ["color", "font-size"]
      (some [("color", "Text Color")]) 1 (by decide)).2
      (Or.inr ⟨[("color", "Text Color")], rfl, by decide⟩)
    exact h.trans (by decide)

/-- Claim C2: if retrieving a property's value raises, the emitted value for
that property is the absent marker `None`, and all subsequent properties are
still processed: the output still has one entry per input property, so no
exception propagates and there is no early termination. -/
theorem C2_error_suppressed (b : BrowserUtils) (el : Element)
    (props : List String) (lm : Option (List (String × String))) (i : Nat)
    (hi : i < props.length) (e : String)
    (hfail : el.value_of_css_property (props.getD i "") = Except.error e) :
    ((b.print_css_properties el (some props) lm).getD i ("", none)).2 = none ∧
    (b.print_css_properties el (some props) lm).length = props.length := by
  refine ⟨?_, print_css_properties_length b el props lm⟩
  rw [print_css_properties_getD b el props lm i hi]
  rw [List.getD_eq_getElem?_getD props i ""] at hfail
  simp [cssValue, hfail]

/-- Witness for C2: on the default three properties with an element raising
exactly on `"color"`, the middle entry's value is `None` and the output still
has three entries. -/
theorem C2_error_suppressed_witness :
    ((utilsOk.print_css_properties elemFailColor
        (some ["background-color", "color", "font-size"]) none).getD 1
        ("", none)).2 = none ∧
    (utilsOk.print_css_properties elemFailColor
        (some ["background-color", "color", "font-size"]) none).length = 3 :=
  C2_error_suppressed utilsOk elemFailColor
    ["background-color", "color", "font-size"] none 1 (by decide) "stale" rfl

/-- Claim C3: the output has exactly `len(P)` entries, one per element of the
property list `P`, in input order: entry `i` equals the sole entry produced
by running the function on the singleton list holding `P`'s `i`-th property.
(The embedding returns only the printed lines: the source method returns
`None`.) -/
theorem C3_one_entry_per_property (b : BrowserUtils) (el : Element)
    (props : List String) (lm : Option (List (String × String))) :
    (b.print_css_properties el (some props) lm).length = props.length ∧
    ∀ i : Nat, i < props.length →
      (b.print_css_properties el (some props) lm).getD i ("", none) =
        (b.print_css_properties el (some [props.getD i ""]) lm).getD 0
          ("", none) := by
  refine ⟨print_css_properties_length b el props lm, ?_⟩
  intro i hi
  rw [print_css_properties_getD b el props lm i hi,
    print_css_properties_getD b el [props.getD i ""] lm 0 (by simp)]
  rfl

/-- Witness for C3 at a concrete input: two properties give two entries, and
each entry agrees with the singleton run of its property. -/
theorem C3_one_entry_per_property_witness :
    (utilsOk.print_css_properties elemOk (some ["color", "font-size"])
        none).length = 2 ∧
    (utilsOk.print_css_properties elemOk (some ["color", "font-size"])
        none).getD 1 ("", none) =
      (utilsOk.print_css_properties elemOk (some ["font-size"]) none).getD 0
        ("", none) := by
  have h := C3_one_entry_per_property utilsOk elemOk ["color", "font-size"] none
  exact ⟨h.1, h.2 1 (by decide)⟩

/-- Claim C4: when no property list is supplied, the list used is exactly
`["background-color", "color", "font-size"]`, in that order: the run with
`properties = None` equals the run with that explicit list. -/
theorem C4_default_property_list (b : BrowserUtils) (el : Element)
    (lm : Option (List (String × String))) :
    b.print_css_properties el none lm =
      b.print_css_properties el
        (some ["background-color", "color", "font-size"]) lm := rfl

/-- Claim C9: the default list is substituted only for `None`: an explicitly
supplied empty list is kept and yields exactly zero output entries, while the
`None` run yields the three default entries. -/
theorem C9_empty_list_not_defaulted (b : BrowserUtils) (el : Element)
    (lm : Option (List (String × String))) :
    b.print_css_properties el (some []) lm = [] ∧
    (b.print_css_properties el none lm).length = 3 :=
  ⟨rfl, rfl⟩

/-- Claim C10: an empty label map behaves exactly like no label map: the two
runs produce identical output for every element and property-list argument. -/
theorem C10_empty_map_like_no_map (b : BrowserUtils) (el : Element)
    (properties : Option (List String)) :
    b.print_css_properties el properties (some []) =
      b.print_css_properties el properties none := by
  have h : cssLabel (some ([] : List (String × String))) = cssLabel none :=
    funext fun _ => rfl
  simp [BrowserUtils.print_css_properties, h]

/-- One driver call made by `LoginPage.login`, for recording call order. -/
inductive DriverCall
  | find_element (locator : Locator)
  | send_keys (locator : Locator) (text : String)
  | click (locator : Locator)
  deriving DecidableEq

/-- `LoginPage.__init__`: stores the driver (both through the base-class
constructor and the explicit `self.driver = driver` line) and sets the three
locators. -/
structure LoginPage where
  driver : Driver
  username : Locator
  password : Locator
  submit : Locator

/-- The `LoginPage` built by `LoginPage.__init__(driver)`. -/
def LoginPage.init (driver : Driver) : LoginPage :=
  ⟨driver, (By.ID, "username"), (By.ID, "password"), (By.ID, "signInBtn")⟩

/-- Modelled from the spec: the shop-page class (`ShopPage`, imported from
`Python_Pytest/PageObject/shop.py`) is not among the available source files;
per the spec, `login` "constructs/returns a new shop-page object bound to the
same driver handle", so a shop page is modelled as a record holding the
driver handle it is bound to. -/
structure ShopPage where
  driver : Driver

/-- The observable outcome of one call to `LoginPage.login`: the driver calls
made, in order (a raising call is still recorded, as it was attempted); the
returned shop page or the propagated exception; and the post-state of the
page object (explicit state passing for `self`). -/
structure LoginResult where
  trace : List DriverCall
  result : Except String ShopPage
  post : LoginPage

/-- `LoginPage.login(self, username, password)`: locate and fill the username
field, locate and fill the password field, locate and click the submit
control, then build and return a `ShopPage` over the same driver.  There is
no exception handling: the first raising driver call ends the method with
that exception. -/
def LoginPage.login (self : LoginPage) (username password : String) :
    LoginResult :=
  match self.driver.find_element_err self.username with
  | some e =>
    ⟨[DriverCall.find_element self.username], Except.error e, self⟩
  | none =>
    match self.driver.send_keys_err self.username username with
    | some e =>
      ⟨[DriverCall.find_element self.username,
        DriverCall.send_keys self.username username], Except.error e, self⟩
    | none =>
      match self.driver.find_element_err self.password with
      | some e =>
        ⟨[DriverCall.find_element self.username,
          DriverCall.send_keys self.username username,
          DriverCall.find_element self.password], Except.error e, self⟩
      | none =>
        match self.driver.send_keys_err self.password password with
        | some e =>
          ⟨[DriverCall.find_element self.username,
            DriverCall.send_keys self.username username,
            DriverCall.find_element self.password,
            DriverCall.send_keys self.password password],
           Except.error e, self⟩
        | none =>
          match self.driver.find_element_err self.submit with
          | some e =>
            ⟨[DriverCall.find_element self.username,
              DriverCall.send_keys self.username username,
              DriverCall.find_element self.password,
              DriverCall.send_keys self.password password,
              DriverCall.find_element self.submit], Except.error e, self⟩
          | none =>
            match self.driver.click_err self.submit with
            | some e =>
              ⟨[DriverCall.find_element self.username,
                DriverCall.send_keys self.username username,
                DriverCall.find_element self.password,
                DriverCall.send_keys self.password password,
                DriverCall.find_element self.submit,
                DriverCall.click self.submit], Except.error e, self⟩
            | none =>
              ⟨[DriverCall.find_element self.username,
                DriverCall.send_keys self.username username,
                DriverCall.find_element self.password,
                DriverCall.send_keys self.password password,
                DriverCall.find_element self.submit,
                DriverCall.click self.submit],
               Except.ok ⟨self.driver⟩, self⟩

/-- `getPageTitle` as inherited by `LoginPage` from `BrowserUtils`, in
state-passing form: the title and the (unchanged) page object. -/
def LoginPage.getPageTitle (self : LoginPage) : String × LoginPage :=
  (self.driver.title, self)

/-- `print_css_properties` as inherited by `LoginPage`, in state-passing
form: the printed lines and the (unchanged) page object. -/
def LoginPage.print_css_properties (self : LoginPage) (element : Element)
    (properties : Option (List String))
    (label_map : Option (List (String × String))) :
    List (String × Option String) × LoginPage :=
  (BrowserUtils.print_css_properties ⟨self.driver⟩ element properties label_map,
   self)

/-- A driver on which the click raises `"boom"` and every other call
succeeds. -/
def driverClickBoom : Driver :=
  ⟨"Home", fun _ => none, fun _ _ => none, fun _ => some "boom"⟩

/-- Claim C5: when every driver call succeeds, `login` makes exactly these
calls in this order — send the username text to the element found by the
username locator, send the password text to the element found by the
password locator, click the element found by the submit locator — and
returns a newly constructed shop page holding the same driver handle. -/
theorem C5_login_flow (d : Driver) (u pw : String)
    (h1 : d.find_element_err (By.ID, "username") = none)
    (h2 : d.send_keys_err (By.ID, "username") u = none)
    (h3 : d.find_element_err (By.ID, "password") = none)
    (h4 : d.send_keys_err (By.ID, "password") pw = none)
    (h5 : d.find_element_err (By.ID, "signInBtn") = none)
    (h6 : d.click_err (By.ID, "signInBtn") = none) :
    ((LoginPage.init d).login u pw).trace =
      [DriverCall.find_element (By.ID, "username"),
       DriverCall.send_keys (By.ID, "username") u,
       DriverCall.find_element (By.ID, "password"),
       DriverCall.send_keys (By.ID, "password") pw,
       DriverCall.find_element (By.ID, "signInBtn"),
       DriverCall.click (By.ID, "signInBtn")] ∧
    ((LoginPage.init d).login u pw).result = Except.ok ⟨d⟩ := by
  constructor <;>
    simp [LoginPage.init, LoginPage.login, h1, h2, h3, h4, h5, h6]

/-- Witness for C5: a concrete all-succeeding driver with inputs `"alice"`
and `"secret"`. -/
theorem C5_login_flow_witness :
    ((LoginPage.init driverOk).login "alice" "secret").trace =
      [DriverCall.find_element (By.ID, "username"),
       DriverCall.send_keys (By.ID, "username") "alice",
       DriverCall.find_element (By.ID, "password"),
       DriverCall.send_keys (By.ID, "password") "secret",
       DriverCall.find_element (By.ID, "signInBtn"),
       DriverCall.click (By.ID, "signInBtn")] ∧
    ((LoginPage.init driverOk).login "alice" "secret").result =
      Except.ok ⟨driverOk⟩ :=
  C5_login_flow driverOk "alice" "secret" rfl rfl rfl rfl rfl rfl

/-- Claim C6: `login` has no local error handling: whichever driver call is
the first to raise, its exception is returned unmodified, and a shop page is
returned only when every one of the six calls succeeded (so no shop page is
constructed after a raise). -/
theorem C6_login_propagates (p : LoginPage) (u pw : String) :
    (∀ e, p.driver.find_element_err p.username = some e →
      (p.login u pw).result = Except.error e) ∧
    (∀ e, p.driver.find_element_err p.username = none →
      p.driver.send_keys_err p.username u = some e →
      (p.login u pw).result = Except.error e) ∧
    (∀ e, p.driver.find_element_err p.username = none →
      p.driver.send_keys_err p.username u = none →
      p.driver.find_element_err p.password = some e →
      (p.login u pw).result = Except.error e) ∧
    (∀ e, p.driver.find_element_err p.username = none →
      p.driver.send_keys_err p.username u = none →
      p.driver.find_element_err p.password = none →
      p.driver.send_keys_err p.password pw = some e →
      (p.login u pw).result = Except.error e) ∧
    (∀ e, p.driver.find_element_err p.username = none →
      p.driver.send_keys_err p.username u = none →
      p.driver.find_element_err p.password = none →
      p.driver.send_keys_err p.password pw = none →
      p.driver.find_element_err p.submit = some e →
      (p.login u pw).result = Except.error e) ∧
    (∀ e, p.driver.find_element_err p.username = none →
      p.driver.send_keys_err p.username u = none →
      p.driver.find_element_err p.password = none →
      p.driver.send_keys_err p.password pw = none →
      p.driver.find_element_err p.submit = none →
      p.driver.click_err p.submit = some e →
      (p.login u pw).result = Except.error e) ∧
    (∀ s, (p.login u pw).result = Except.ok s →
      p.driver.find_element_err p.username = none ∧
      p.driver.send_keys_err p.username u = none ∧
      p.driver.find_element_err p.password = none ∧
      p.driver.send_keys_err p.password pw = none ∧
      p.driver.find_element_err p.submit = none ∧
      p.driver.click_err p.submit = none) := by
  refine ⟨?_, ?_, ?_, ?_, ?_, ?_, ?_⟩
  · intro e h1
    simp [LoginPage.login, h1]
  · intro e h1 h2
    simp [LoginPage.login, h1, h2]
  · intro e h1 h2 h3
    simp [LoginPage.login, h1, h2, h3]
  · intro e h1 h2 h3 h4
    simp [LoginPage.login, h1, h2, h3, h4]
  · intro e h1 h2 h3 h4 h5
    simp [LoginPage.login, h1, h2, h3, h4, h5]
  · intro e h1 h2 h3 h4 h5 h6
    simp [LoginPage.login, h1, h2, h3, h4, h5, h6]
  · intro s hs
    unfold LoginPage.login at hs
    repeat' split at hs
    all_goals simp_all

/-- Witness for C6: a concrete driver whose click raises `"boom"`; the
exception comes back unmodified as the result of `login`. -/
theorem C6_login_propagates_witness :
    ((LoginPage.init driverClickBoom).login "alice" "secret").result =
      Except.error "boom" :=
  ((C6_login_propagates (LoginPage.init driverClickBoom)
      "alice" "secret").2.2.2.2.2.1) "boom" rfl rfl rfl rfl rfl rfl

/-- Claim C7: construction fixes the three locators to
`(By.ID, "username")`, `(By.ID, "password")` and `(By.ID, "signInBtn")` and
stores the given driver, and none of `login`, `getPageTitle` or
`print_css_properties` changes any field of the page object: each post-state
equals the pre-state, locators and driver reference included. -/
theorem C7_locators_fixed (d : Driver) (p : LoginPage) (u pw : String)
    (el : Element) (props : Option (List String))
    (lm : Option (List (String × String))) :
    (LoginPage.init d).driver = d ∧
    (LoginPage.init d).username = (By.ID, "username") ∧
    (LoginPage.init d).password = (By.ID, "password") ∧
    (LoginPage.init d).submit = (By.ID, "signInBtn") ∧
    (p.login u pw).post = p ∧
    p.getPageTitle.2 = p ∧
    (p.print_css_properties el props lm).2 = p := by
  refine ⟨rfl, rfl, rfl, rfl, ?_, rfl, rfl⟩
  unfold LoginPage.login
  repeat' split
  all_goals rfl

/-- Claim C8: `getPageTitle` returns exactly the driver's current `title`
property value, with no transformation. -/
theorem C8_getPageTitle (d : Driver) :
    BrowserUtils.getPageTitle ⟨d⟩ = d.title := rfl
